import Mathlib

/-!
Shallow embedding of the client-side data cache and fetch coordinator of
`src/client/hooks/useOptimizedData.ts`, together with proofs about the
claims of the specification.

Modelling conventions:
* Timestamps and durations are `Int` milliseconds (`Date.now()` values).
* The JS `Map<string, CacheEntry<any>>` is modelled as a function
  `String → Option (CacheEntry T)`; a key is "physically present" when the
  function returns `some`.
* `DataCache.get` both returns the value and the (possibly updated) cache,
  because the source's `get` deletes expired entries.
* React state setters (`setData`, `setIsLoading`, ...) are modelled as
  immediate field updates on an explicit coordinator state record, and the
  `fetchFn` suspension point splits `fetchData` into a synchronous start
  phase (`fetchStart`: the guards, the abort of the previous controller and
  the transition to loading) and a resolution phase (`fetchResolve`: the
  `try/catch/finally` continuation that runs when the promise settles).
  The source's continuation never consults the abort signal, so
  `fetchResolve` applies its effects unconditionally — exactly as the code
  does.
-/

namespace OptimizedData

/-- `CacheEntry<T>` of `useOptimizedData.ts`: `data`, `timestamp`
(creation time, the spec's `storedAt`) and `expiresAt`. -/
structure CacheEntry (T : Type) where
  data : T
  timestamp : Int
  expiresAt : Int
deriving Repr, DecidableEq

/-- The `Map<string, CacheEntry<any>>` held by `DataCache`, at one payload
type. -/
abbrev Cache (T : Type) := String → Option (CacheEntry T)

/-- `DEFAULT_TTL = 5 * 60 * 1000` (5 minutes, in milliseconds). -/
def DEFAULT_TTL : Int := 5 * 60 * 1000

/-- The empty cache (process start: the store is memory-only and empty). -/
def DataCache.empty {T : Type} : Cache T := fun _ => none

/-- `DataCache.set(key, data, ttl)`: stores
`{ data, timestamp: Date.now(), expiresAt: Date.now() + ttl }`,
overwriting any existing entry.  `now` is the `Date.now()` reading. -/
def DataCache.set {T : Type} (c : Cache T) (key : String) (data : T)
    (ttl : Int) (now : Int) : Cache T :=
  fun k =>
    if k = key then some { data := data, timestamp := now, expiresAt := now + ttl }
    else c k

/-- `DataCache.get(key)`: returns `null` on a missing entry; if
`Date.now() > entry.expiresAt` deletes the entry and returns `null`;
otherwise returns the data.  The second component is the cache after the
call (the source mutates the map in place on expiry). -/
def DataCache.get {T : Type} (c : Cache T) (key : String) (now : Int) :
    Option T × Cache T :=
  match c key with
  | none => (none, c)
  | some entry =>
    if now > entry.expiresAt then
      (none, fun k => if k = key then none else c k)
    else
      (some entry.data, c)

/-- JS `key.includes(pattern)`: substring containment. -/
def stringIncludes (s pat : String) : Bool :=
  decide (pat.toList <:+: s.toList)

/-- `DataCache.invalidate(pattern?)`: with no pattern, clears the map;
with a pattern, deletes every key that contains the pattern. -/
def DataCache.invalidate {T : Type} (c : Cache T) (pattern : Option String) :
    Cache T :=
  match pattern with
  | none => fun _ => none
  | some p => fun k => if stringIncludes k p then none else c k

/-- `DataCache.cleanup()`: deletes every entry with `now > entry.expiresAt`
(the periodic sweep). -/
def DataCache.cleanup {T : Type} (c : Cache T) (now : Int) : Cache T :=
  fun k =>
    match c k with
    | none => none
    | some entry => if now > entry.expiresAt then none else some entry

/-! ## The fetch coordinator (`useOptimizedData`) -/

/-- The recognized options of `useOptimizedData`, with the source's
defaults. -/
structure HookOptions where
  ttl : Int := DEFAULT_TTL
  refreshOnFocus : Bool := true
  retryOnError : Bool := true
  maxRetries : Nat := 3
deriving Repr, DecidableEq

/-- The per-hook coordinator state: the React state cells
(`data`, `isLoading`, `error`, `retryCount`), the refs
(`lastFetchRef`, initialised to `0`, and `abortControllerRef`, modelled as
an optional token id), plus bookkeeping for the tokens: `nextToken` is a
fresh-id counter and `cancelled` records every token on which `abort()`
has been called. -/
structure HookState (T : Type) where
  data : Option T := none
  isLoading : Bool := false
  error : Option String := none
  retryCount : Nat := 0
  lastFetch : Int := 0
  currentToken : Option Nat := none
  nextToken : Nat := 0
  cancelled : List Nat := []
deriving Repr, DecidableEq

/-- What a call to `fetchData` does synchronously, up to the `await`:
either it returned a cache hit, or a guard suppressed it, or it invoked
the underlying fetch (`started`, tagged with the fresh abort token). -/
inductive StartOutcome (T : Type) where
  | cachedHit (v : T)
  | suppressed
  | started (token : Nat)
deriving Repr, DecidableEq

/-- Whether a start outcome invoked the underlying fetch. -/
def StartOutcome.isStarted {T : Type} : StartOutcome T → Bool
  | .started _ => true
  | _ => false

/-- The tail of `fetchData` once all guards have passed:
`setIsLoading(true); setError(null);` then
`abortControllerRef.current?.abort(); abortControllerRef.current = new AbortController();`
and the invocation of `fetchFn()`. -/
def abortAndStart {T : Type} (st : HookState T) (c : Cache T) :
    StartOutcome T × HookState T × Cache T :=
  let cancelled :=
    match st.currentToken with
    | some tok => st.cancelled ++ [tok]
    | none => st.cancelled
  (.started st.nextToken,
   { st with
      isLoading := true
      error := none
      cancelled := cancelled
      currentToken := some st.nextToken
      nextToken := st.nextToken + 1 },
   c)

/-- The synchronous prefix of `fetchData(force)` at `Date.now() = now`:
the cache check (`if (!force)`), the concurrent-request guard
(`if (isLoading && !force) return`), the rate limit
(`if (!force && now - lastFetchRef.current < 1000) return`), then
`abortAndStart`.  Returns the outcome together with the updated state and
cache (the cache can change even on a suppressed call, because `get`
evicts an expired entry). -/
def fetchStart {T : Type} (st : HookState T) (c : Cache T) (key : String)
    (force : Bool) (now : Int) : StartOutcome T × HookState T × Cache T :=
  if force then abortAndStart st c
  else
    let res := DataCache.get c key now
    match res.1 with
    | some v => (.cachedHit v, { st with data := some v }, res.2)
    | none =>
      if st.isLoading then (.suppressed, st, res.2)
      else if now - st.lastFetch < 1000 then (.suppressed, st, res.2)
      else abortAndStart st res.2

/-- How a settled `fetchData` call reports to its caller: the returned
value on success; on failure the error is **rethrown** (`throw err`),
either after scheduling a retry in `delay` milliseconds
(`setTimeout(() => fetchData(true), 2 ** retryCount * 1000)`) or, once the
budget is exhausted, with no retry scheduled. -/
inductive ResolveOutcome (T : Type) where
  | success (v : T)
  | failureRetry (msg : String) (delay : Int)
  | failureFinal (msg : String)
deriving Repr, DecidableEq

/-- The error rethrown to the caller by this resolution, if any. -/
def ResolveOutcome.thrown {T : Type} : ResolveOutcome T → Option String
  | .success _ => none
  | .failureRetry msg _ => some msg
  | .failureFinal msg => some msg

/-- The `try/catch/finally` continuation of `fetchData` that runs when the
promise returned by `fetchFn()` settles.  `startNow` is the `now` captured
at the top of `fetchData` (it is what `lastFetchRef.current = now` writes
on success); `resolveNow` is `Date.now()` at resolution time (it is what
`globalCache.set` reads).  The source never consults the abort signal
here, so the effects apply unconditionally, whichever request the
continuation belongs to; the `finally` block sets `isLoading` to `false`
and clears `abortControllerRef`. -/
def fetchResolve {T : Type} (opts : HookOptions) (st : HookState T)
    (c : Cache T) (key : String) (startNow : Int)
    (result : Except String T) (resolveNow : Int) :
    ResolveOutcome T × HookState T × Cache T :=
  match result with
  | .ok v =>
    (.success v,
     { st with
        data := some v
        retryCount := 0
        lastFetch := startNow
        isLoading := false
        currentToken := none },
     DataCache.set c key v opts.ttl resolveNow)
  | .error msg =>
    if opts.retryOnError = true ∧ st.retryCount < opts.maxRetries then
      (.failureRetry msg ((2 ^ st.retryCount : Int) * 1000),
       { st with
          error := some msg
          retryCount := st.retryCount + 1
          isLoading := false
          currentToken := none },
       c)
    else
      (.failureFinal msg,
       { st with
          error := some msg
          isLoading := false
          currentToken := none },
       c)

/-- The hook's `invalidate()` callback:
`globalCache.invalidate(key); setData(null);`. -/
def hookInvalidate {T : Type} (st : HookState T) (c : Cache T)
    (key : String) : HookState T × Cache T :=
  ({ st with data := none }, DataCache.invalidate c (some key))

/-- The hook's `refresh()` callback:
`globalCache.invalidate(key); return fetchData(true);` (its synchronous
start phase). -/
def refreshStart {T : Type} (st : HookState T) (c : Cache T) (key : String)
    (now : Int) : StartOutcome T × HookState T × Cache T :=
  fetchStart st (DataCache.invalidate c (some key)) key true now

/-- The `try/catch/finally` continuation of `fetchData` as executed by a
particular *closure*.  `fetchData` is built by `useCallback`, so the
`retryCount` read inside the catch block — in the retry guard
`retryCount < maxRetries` and in the backoff delay
`Math.pow(2, retryCount) * 1000` — is the value `crc` captured by the
render that created the closure, not the live state;
`setRetryCount(prev => prev + 1)` by contrast is a functional update and
increments the live state.  `fetchResolve` above is the special case
`crc = st.retryCount` (a closure from a render that saw the current
count). -/
def fetchResolveCaptured {T : Type} (opts : HookOptions) (crc : Nat)
    (st : HookState T) (c : Cache T) (key : String) (startNow : Int)
    (result : Except String T) (resolveNow : Int) :
    ResolveOutcome T × HookState T × Cache T :=
  match result with
  | .ok v =>
    (.success v,
     { st with
        data := some v
        retryCount := 0
        lastFetch := startNow
        isLoading := false
        currentToken := none },
     DataCache.set c key v opts.ttl resolveNow)
  | .error msg =>
    if opts.retryOnError = true ∧ crc < opts.maxRetries then
      (.failureRetry msg ((2 ^ crc : Int) * 1000),
       { st with
          error := some msg
          retryCount := st.retryCount + 1
          isLoading := false
          currentToken := none },
       c)
    else
      (.failureFinal msg,
       { st with
          error := some msg
          isLoading := false
          currentToken := none },
       c)

/-- The coordinator state after one failed attempt whose resolving closure
still schedules a retry: the composed effect of `abortAndStart` followed
by the `failureRetry` branch of `fetchResolveCaptured` on state `st`
(used to phrase the unfolding of one simulated attempt). -/
def staleRetryState {T : Type} (failMsg : Nat → String) (st : HookState T) :
    HookState T :=
  { st with
     isLoading := false
     error := some (failMsg st.retryCount)
     retryCount := st.retryCount + 1
     cancelled :=
       match st.currentToken with
       | some tok => st.cancelled ++ [tok]
       | none => st.cancelled
     currentToken := none
     nextToken := st.nextToken + 1 }

/-- Driver for the retry chain against a fetch that fails on every
invocation (`failMsg i` is the message thrown on the attempt made while
the live `retryCount` is `i`), resolving each attempt immediately at its
start time.  `crc` is the `retryCount` captured by the closure running the
current attempt.  The scheduled callback `() => fetchData(true)` closes
over the *same* `fetchData` binding that is executing the catch block, so
a scheduled retry re-invokes the very same closure: the recursion passes
`crc` through unchanged, exactly as the source does.  Returns the number
of fetch invocations, the list of scheduled backoff delays, and the final
state and cache.  `fuel` bounds the simulation length. -/
def runStaleRetries {T : Type} (opts : HookOptions) (key : String)
    (failMsg : Nat → String) :
    Nat → Nat → Bool → Int → HookState T → Cache T →
      Nat × List Int × HookState T × Cache T
  | 0, _, _, _, st, c => (0, [], st, c)
  | fuel + 1, crc, force, now, st, c =>
    match fetchStart st c key force now with
    | (.started _, st1, c1) =>
      match fetchResolveCaptured opts crc st1 c1 key now
          (.error (failMsg st1.retryCount)) now with
      | (.failureRetry _ delay, st2, c2) =>
        let rest := runStaleRetries opts key failMsg fuel crc true (now + delay) st2 c2
        (rest.1 + 1, delay :: rest.2.1, rest.2.2)
      | (.failureFinal _, st2, c2) => (1, [], st2, c2)
      | (.success _, st2, c2) => (1, [], st2, c2)
    | (_, st1, c1) => (0, [], st1, c1)

/-! ## Concrete traces used to settle the supersession and rate-limit
claims -/

/-- Supersession trace, step 1: request A, non-forced, from a fresh hook
at `t = 5000` (invokes the fetch with token 0). -/
def c1Step1 : StartOutcome Nat × HookState Nat × Cache Nat :=
  fetchStart {} DataCache.empty "k" false 5000

/-- Supersession trace, step 2: request B, `forceRefresh = true`, at
`t = 5100` while A is in flight (aborts token 0, starts token 1). -/
def c1Step2 : StartOutcome Nat × HookState Nat × Cache Nat :=
  fetchStart c1Step1.2.1 c1Step1.2.2 "k" true 5100

/-- Supersession trace, step 3: B's fetch resolves with value `2` at
`t = 5200`. -/
def c1Step3 : ResolveOutcome Nat × HookState Nat × Cache Nat :=
  fetchResolve {} c1Step2.2.1 c1Step2.2.2 "k" 5100 (.ok 2) 5200

/-- Supersession trace, step 4: A's fetch — whose token was aborted in
step 2 — resolves with value `1` at `t = 5300`. -/
def c1Step4 : ResolveOutcome Nat × HookState Nat × Cache Nat :=
  fetchResolve {} c1Step3.2.1 c1Step3.2.2 "k" 5000 (.ok 1) 5300

/-- Rate-limit trace, step 1: a non-forced request from a fresh hook at
`t = 5000` (with `retryOnError = false`), which starts a fetch. -/
def c5Step1 : StartOutcome Nat × HookState Nat × Cache Nat :=
  fetchStart {} DataCache.empty "k" false 5000

/-- Rate-limit trace, step 2: that fetch fails at `t = 5000`. -/
def c5Step2 : ResolveOutcome Nat × HookState Nat × Cache Nat :=
  fetchResolve { retryOnError := false } c5Step1.2.1 c5Step1.2.2 "k" 5000
    (.error "boom") 5000

/-- Rate-limit trace, step 3: a new non-forced request at `t = 5500`,
500 ms after the failed attempt completed. -/
def c5Step3 : StartOutcome Nat × HookState Nat × Cache Nat :=
  fetchStart c5Step2.2.1 c5Step2.2.2 "k" false 5500

/-! ## Basic lemmas about the cache operations -/

/-- Reading the key just written by `set`. -/
theorem DataCache.set_apply_same {T : Type} (c : Cache T) (key : String)
    (v : T) (ttl now : Int) :
    (DataCache.set c key v ttl now) key =
      some { data := v, timestamp := now, expiresAt := now + ttl } := by
  simp [DataCache.set]

/-- `get` on a key holding entry `e`. -/
theorem DataCache.get_of_entry {T : Type} (c : Cache T) (key : String)
    (now : Int) (e : CacheEntry T) (hc : c key = some e) :
    DataCache.get c key now =
      if now > e.expiresAt then (none, fun k => if k = key then none else c k)
      else (some e.data, c) := by
  simp [DataCache.get, hc]

/-- `get` on an absent key. -/
theorem DataCache.get_of_none {T : Type} (c : Cache T) (key : String)
    (now : Int) (hc : c key = none) :
    DataCache.get c key now = (none, c) := by
  simp [DataCache.get, hc]

/-- `cleanup` applied pointwise to an absent key. -/
theorem DataCache.cleanup_of_none {T : Type} (c : Cache T) (key : String)
    (now : Int) (hc : c key = none) :
    (DataCache.cleanup c now) key = none := by
  simp [DataCache.cleanup, hc]

/-- `cleanup` applied pointwise to a key holding entry `e`. -/
theorem DataCache.cleanup_of_entry {T : Type} (c : Cache T) (key : String)
    (now : Int) (e : CacheEntry T) (hc : c key = some e) :
    (DataCache.cleanup c now) key =
      if now > e.expiresAt then none else some e := by
  simp [DataCache.cleanup, hc]

/-- The value component of `get` on an expired entry. -/
theorem DataCache.get_fst_expired {T : Type} (c : Cache T) (key : String)
    (now : Int) (e : CacheEntry T) (hc : c key = some e)
    (h : e.expiresAt < now) :
    (DataCache.get c key now).1 = none := by
  rw [DataCache.get_of_entry c key now e hc, if_pos (by omega)]

/-- The value component of `get` on an unexpired entry. -/
theorem DataCache.get_fst_live {T : Type} (c : Cache T) (key : String)
    (now : Int) (e : CacheEntry T) (hc : c key = some e)
    (h : now ≤ e.expiresAt) :
    (DataCache.get c key now).1 = some e.data := by
  rw [DataCache.get_of_entry c key now e hc, if_neg (by omega)]

/-! ## Guard lemmas for `fetchStart` -/

/-- A forced call skips the cache check, the concurrent-request guard and
the rate limit, and goes straight to aborting the previous request and
starting a new fetch. -/
theorem fetchStart_force {T : Type} (st : HookState T) (c : Cache T)
    (key : String) (now : Int) :
    fetchStart st c key true now = abortAndStart st c := rfl

/-- A non-forced call with a usable cache entry returns it with no fetch. -/
theorem fetchStart_hit {T : Type} (st : HookState T) (c : Cache T)
    (key : String) (now : Int) (v : T)
    (hhit : (DataCache.get c key now).1 = some v) :
    fetchStart st c key false now =
      (.cachedHit v, { st with data := some v }, (DataCache.get c key now).2) := by
  simp [fetchStart, hhit]

/-- A non-forced call on a cache miss while already loading is dropped by
the concurrent-request guard. -/
theorem fetchStart_miss_loading {T : Type} (st : HookState T) (c : Cache T)
    (key : String) (now : Int)
    (hmiss : (DataCache.get c key now).1 = none)
    (hload : st.isLoading = true) :
    fetchStart st c key false now = (.suppressed, st, (DataCache.get c key now).2) := by
  simp [fetchStart, hmiss, hload]

/-- A non-forced call on a cache miss, not loading, within 1000 ms of
`lastFetchRef.current`, is dropped by the rate limit. -/
theorem fetchStart_miss_rate_limited {T : Type} (st : HookState T) (c : Cache T)
    (key : String) (now : Int)
    (hmiss : (DataCache.get c key now).1 = none)
    (hload : st.isLoading = false)
    (hrate : now - st.lastFetch < 1000) :
    fetchStart st c key false now = (.suppressed, st, (DataCache.get c key now).2) := by
  simp [fetchStart, hmiss, hload, hrate]

/-- A non-forced call on a cache miss with every guard passing starts a
fetch. -/
theorem fetchStart_miss_idle {T : Type} (st : HookState T) (c : Cache T)
    (key : String) (now : Int)
    (hmiss : (DataCache.get c key now).1 = none)
    (hload : st.isLoading = false)
    (hrate : 1000 ≤ now - st.lastFetch) :
    fetchStart st c key false now = abortAndStart st (DataCache.get c key now).2 := by
  simp [fetchStart, hmiss, hload]
  intro h
  exact absurd h (by omega)

/-! ## Branch lemmas for `fetchResolve` -/

/-- A failing resolution with retry budget left schedules a retry after
`2 ^ retryCount * 1000` ms, increments `retryCount`, and still records the
error and rethrows it. -/
theorem fetchResolve_error_retry {T : Type} (opts : HookOptions)
    (st : HookState T) (c : Cache T) (key : String)
    (startNow resolveNow : Int) (msg : String)
    (hcond : opts.retryOnError = true ∧ st.retryCount < opts.maxRetries) :
    fetchResolve opts st c key startNow (.error msg) resolveNow =
      (.failureRetry msg ((2 ^ st.retryCount : Int) * 1000),
       { st with
          error := some msg
          retryCount := st.retryCount + 1
          isLoading := false
          currentToken := none },
       c) := by
  simp only [fetchResolve]
  rw [if_pos hcond]

/-- A failing resolution with the budget exhausted (or retries disabled)
records the error, rethrows it, and schedules nothing. -/
theorem fetchResolve_error_final {T : Type} (opts : HookOptions)
    (st : HookState T) (c : Cache T) (key : String)
    (startNow resolveNow : Int) (msg : String)
    (hcond : ¬(opts.retryOnError = true ∧ st.retryCount < opts.maxRetries)) :
    fetchResolve opts st c key startNow (.error msg) resolveNow =
      (.failureFinal msg,
       { st with
          error := some msg
          isLoading := false
          currentToken := none },
       c) := by
  simp only [fetchResolve]
  rw [if_neg hcond]

/-! ## Theorems about the cache store (C4, C8, C9, C10) -/

/-- **C4.** For every `ttl > 0`, a value stored at time `t` is returned by
`get` at every query time in `[t, t + ttl]`, and `get` treats the entry as
absent (returns `null`) at every query time strictly greater than
`t + ttl`. -/
theorem C4_ttl_correct {T : Type} (c : Cache T) (key : String) (v : T)
    (ttl t q : Int) (httl : 0 < ttl) :
    (t ≤ q ∧ q ≤ t + ttl →
      (DataCache.get (DataCache.set c key v ttl t) key q).1 = some v) ∧
    (t + ttl < q →
      (DataCache.get (DataCache.set c key v ttl t) key q).1 = none) := by
  rw [DataCache.get_of_entry _ key q _ (DataCache.set_apply_same c key v ttl t)]
  constructor
  · rintro ⟨-, h2⟩
    rw [if_neg (by simp only; omega)]
  · intro h
    rw [if_pos (by simp only; omega)]

/-- Witness for C4 at `ttl = 100`, `t = 0`, query times `50` and `101`. -/
theorem C4_ttl_correct_witness :
    (0:Int) < 100 ∧
    ((0 ≤ (50:Int) ∧ (50:Int) ≤ 0 + 100 →
      (DataCache.get (DataCache.set (DataCache.empty (T := Nat)) "k" 7 100 0) "k" 50).1 = some 7) ∧
    ((0:Int) + 100 < 50 →
      (DataCache.get (DataCache.set (DataCache.empty (T := Nat)) "k" 7 100 0) "k" 50).1 = none)) :=
  ⟨by decide, C4_ttl_correct DataCache.empty "k" 7 100 0 50 (by decide)⟩

/-- **C8, counterexample.** The claim asserts `expiresAt ≥ storedAt` for
*every* `ttl` a caller may pass, but `set` computes `expiresAt = now + ttl`
with no guard, so a negative `ttl` (which the spec's own sweep test,
"insert an entry with a past expiry", requires to be expressible) yields
`expiresAt < storedAt`: here `set` at time `10` with `ttl = -1` produces an
entry with `timestamp = 10` and `expiresAt = 9`. -/
theorem C8_counterexample :
    (DataCache.set (DataCache.empty (T := Nat)) "k" 0 (-1) 10) "k" =
      some { data := 0, timestamp := 10, expiresAt := 9 } ∧
    (9:Int) < 10 := by
  refine ⟨?_, by decide⟩
  rw [DataCache.set_apply_same]
  decide

/-- **C8, amended.** For every `ttl ≥ 0` (which covers the default TTL),
the entry produced by `set` satisfies `expiresAt ≥ storedAt`; moreover the
entry after `set` is exactly the freshly built record, independent of any
previous entry at the key — a refresh creates a new entry, never mutating
in place. -/
theorem C8_amended {T : Type} (c : Cache T) (key : String) (v : T)
    (ttl now : Int) (h : 0 ≤ ttl) :
    (DataCache.set c key v ttl now) key =
      some { data := v, timestamp := now, expiresAt := now + ttl } ∧
    now ≤ now + ttl :=
  ⟨DataCache.set_apply_same c key v ttl now, by omega⟩

/-- Witness for C8 (amended) at the default TTL. -/
theorem C8_amended_witness :
    (0:Int) ≤ DEFAULT_TTL ∧
    ((DataCache.set (DataCache.empty (T := Nat)) "k" 3 DEFAULT_TTL 1000) "k" =
      some { data := 3, timestamp := 1000, expiresAt := 1000 + DEFAULT_TTL } ∧
    (1000:Int) ≤ 1000 + DEFAULT_TTL) :=
  ⟨by decide, C8_amended DataCache.empty "k" 3 DEFAULT_TTL 1000 (by decide)⟩

/-- **C9, counterexample.** `cleanup` removes an entry only when
`now > expiresAt` (strict).  An entry inserted with `ttl = 0` at time
`1000` has `expiresAt = 1000`; a sweep whose `Date.now()` reading is the
same millisecond `1000` does *not* remove it, contradicting the claim that
a `ttl = 0` entry is physically removed by the sweep. -/
theorem C9_counterexample :
    ((DataCache.cleanup (DataCache.set (DataCache.empty (T := Nat)) "k" 0 0 1000) 1000) "k").isSome
      = true := by
  rw [DataCache.cleanup_of_entry _ "k" 1000 _ (DataCache.set_apply_same _ "k" 0 0 1000)]
  decide

/-- **C9, amended.** After `cleanup` at time `now`, every surviving entry
satisfies `now ≤ expiresAt` (no entry whose `expiresAt` has passed
remains); and an entry inserted with `ttl = 0` or a past expiry is
physically removed by any sweep whose clock reading is strictly past its
expiry, i.e. whenever `t + ttl < now`. -/
theorem C9_amended {T : Type} (c c₀ : Cache T) (key : String)
    (now t ttl : Int) (v : T) (e : CacheEntry T) :
    ((DataCache.cleanup c now) key = some e → now ≤ e.expiresAt) ∧
    (t + ttl < now →
      (DataCache.cleanup (DataCache.set c₀ key v ttl t) now) key = none) := by
  constructor
  · intro h
    cases hc : c key with
    | none => rw [DataCache.cleanup_of_none c key now hc] at h; exact absurd h (by simp)
    | some e' =>
      rw [DataCache.cleanup_of_entry c key now e' hc] at h
      by_cases hexp : now > e'.expiresAt
      · rw [if_pos hexp] at h; exact absurd h (by simp)
      · rw [if_neg hexp] at h
        cases h
        omega
  · intro h
    rw [DataCache.cleanup_of_entry _ key now _ (DataCache.set_apply_same c₀ key v ttl t)]
    rw [if_pos (by simp only; omega)]

/-- Witness for C9 (amended): a sweep at time `5` on a cache holding an
entry expiring at `9`, and removal of a `ttl = 0` entry inserted at `1`. -/
theorem C9_amended_witness :
    (((DataCache.cleanup
        (DataCache.set (DataCache.empty (T := Nat)) "k" 2 9 0) 5) "k" =
          some { data := 2, timestamp := 0, expiresAt := 9 } →
      (5:Int) ≤ ({ data := 2, timestamp := 0, expiresAt := 9 } : CacheEntry Nat).expiresAt) ∧
    ((1:Int) + 0 < 5 →
      (DataCache.cleanup
        (DataCache.set (DataCache.empty (T := Nat)) "k" 2 0 1) 5) "k" = none)) :=
  C9_amended (DataCache.set DataCache.empty "k" 2 9 0) DataCache.empty "k" 5 1 0 2
    { data := 2, timestamp := 0, expiresAt := 9 }

/-- **C10.** `get` on an entry whose `expiresAt` has passed returns `null`
and immediately evicts the entry: the key is physically absent from the
cache returned by `get`, without waiting for a sweep. -/
theorem C10_get_evicts_expired {T : Type} (c : Cache T) (key : String)
    (now : Int) (e : CacheEntry T) (h1 : c key = some e)
    (h2 : e.expiresAt < now) :
    (DataCache.get c key now).1 = none ∧
    (DataCache.get c key now).2 key = none := by
  rw [DataCache.get_of_entry c key now e h1, if_pos (by omega)]
  exact ⟨rfl, by simp⟩

/-- Witness for C10: an entry expiring at `10`, read at time `11`. -/
theorem C10_get_evicts_expired_witness :
    (DataCache.set (DataCache.empty (T := Nat)) "k" 4 10 0) "k" =
        some { data := 4, timestamp := 0, expiresAt := 10 } ∧
    ({ data := 4, timestamp := 0, expiresAt := 10 } : CacheEntry Nat).expiresAt < 11 ∧
    ((DataCache.get (DataCache.set (DataCache.empty (T := Nat)) "k" 4 10 0) "k" 11).1 = none ∧
     (DataCache.get (DataCache.set (DataCache.empty (T := Nat)) "k" 4 10 0) "k" 11).2 "k" = none) :=
  ⟨by rw [DataCache.set_apply_same]; decide, by decide,
   C10_get_evicts_expired (DataCache.set DataCache.empty "k" 4 10 0) "k" 11
     { data := 4, timestamp := 0, expiresAt := 10 }
     (by rw [DataCache.set_apply_same]; decide) (by decide)⟩

/-! ## Theorems about the fetch coordinator (C1, C2, C3, C5, C6, C7) -/

/-- **C1.** In the supersession trace, request A's token (0) is cancelled
when the forced request B starts, B's resolution sets `data = 2` and
caches `2`; yet when A's fetch later resolves, its continuation — which
never consults the abort signal — overwrites the coordinator state and
the cache with A's stale value `1`.  This violates the claim (and the
spec's cancellation requirement): the code is the slip, since it
constructs and aborts `AbortController`s whose signal it never checks and
never passes to `fetchFn`. -/
theorem C1_cancelled_request_still_overwrites :
    c1Step1.1 = .started 0 ∧ c1Step2.1 = .started 1 ∧
    0 ∈ c1Step2.2.1.cancelled ∧
    c1Step3.2.1.data = some 2 ∧ (DataCache.get c1Step3.2.2 "k" 5200).1 = some 2 ∧
    c1Step4.2.1.data = some 1 ∧ (DataCache.get c1Step4.2.2 "k" 5300).1 = some 1 := by
  decide

/-- A retry chain run by a closure whose captured `retryCount` is `0`
(the mount render's closure) never stops: with the default options, every
simulated attempt starts a fetch, schedules another retry at the constant
delay `2 ^ 0 * 1000 = 1000` ms, and increments the live `retryCount`, for
any fuel, any state and any start time. -/
theorem runStaleRetries_always_retries {T : Type} (key : String)
    (failMsg : Nat → String) :
    ∀ (fuel : Nat) (st : HookState T) (c : Cache T) (now : Int),
      (runStaleRetries {} key failMsg fuel 0 true now st c).1 = fuel ∧
      (runStaleRetries {} key failMsg fuel 0 true now st c).2.1 =
        List.replicate fuel 1000 ∧
      (runStaleRetries {} key failMsg fuel 0 true now st c).2.2.1.retryCount =
        st.retryCount + fuel := by
  intro fuel
  induction fuel with
  | zero => exact fun st c now => ⟨rfl, rfl, rfl⟩
  | succ n ih =>
    intro st c now
    have step : runStaleRetries ({} : HookOptions) key failMsg (n + 1) 0 true now st c
        = ((runStaleRetries {} key failMsg n 0 true (now + 1000)
              (staleRetryState failMsg st) c).1 + 1,
           1000 :: (runStaleRetries {} key failMsg n 0 true (now + 1000)
              (staleRetryState failMsg st) c).2.1,
           (runStaleRetries {} key failMsg n 0 true (now + 1000)
              (staleRetryState failMsg st) c).2.2) := rfl
    obtain ⟨hc, hd, hr⟩ := ih (staleRetryState failMsg st) c (now + 1000)
    rw [step]
    refine ⟨by rw [hc], by rw [hd, List.replicate_succ], ?_⟩
    rw [hr]
    show st.retryCount + 1 + n = st.retryCount + (n + 1)
    omega

/-- **C2.** The claim matches the spec's intended backoff schedule, but
not the program: the retry is scheduled as
`setTimeout(() => fetchData(true), Math.pow(2, retryCount) * 1000)` inside
a `useCallback` closure, so the guard `retryCount < maxRetries` and the
delay both read the `retryCount` captured by the scheduling render —
`0` for the chain started by the initial request — and the callback
re-invokes that same closure.  Hence, with default options and an
always-failing fetch, a single initial request does not stop after 4
invocations with delays 1s/2s/4s: for every `fuel`, the simulated chain
performs `fuel + 1` fetch invocations, every scheduled delay is a constant
1000 ms, a further retry is always scheduled, and the live `retryCount`
grows to `fuel + 1`, past `maxRetries = 3`.  The code contradicts the
spec's explicit schedule and its `retryCount ∈ [0, maxRetries]` invariant:
a code bug. -/
theorem C2_stale_retry_never_terminates {T : Type} (failMsg : Nat → String)
    (fuel : Nat) :
    (runStaleRetries (T := T) {} "k" failMsg (fuel + 1) 0 false 100000 {} DataCache.empty).1 =
      fuel + 1 ∧
    (runStaleRetries (T := T) {} "k" failMsg (fuel + 1) 0 false 100000 {} DataCache.empty).2.1 =
      List.replicate (fuel + 1) 1000 ∧
    (runStaleRetries (T := T) {} "k" failMsg (fuel + 1) 0 false 100000 {} DataCache.empty).2.2.1.retryCount =
      fuel + 1 := by
  have step : runStaleRetries (T := T) {} "k" failMsg (fuel + 1) 0 false 100000 {} DataCache.empty
      = ((runStaleRetries {} "k" failMsg fuel 0 true 101000
            (staleRetryState failMsg {}) DataCache.empty).1 + 1,
         1000 :: (runStaleRetries {} "k" failMsg fuel 0 true 101000
            (staleRetryState failMsg {}) DataCache.empty).2.1,
         (runStaleRetries {} "k" failMsg fuel 0 true 101000
            (staleRetryState failMsg {}) DataCache.empty).2.2) := rfl
  obtain ⟨hc, hd, hr⟩ := runStaleRetries_always_retries "k" failMsg fuel
    (staleRetryState failMsg {}) DataCache.empty 101000
  rw [step]
  refine ⟨by rw [hc], by rw [hd, List.replicate_succ], ?_⟩
  rw [hr]
  show 1 + fuel = fuel + 1
  omega

/-- **C3.** Two non-forced requests for the same key from a fresh hook,
the second issued (at any time `t'`) while the first's fetch is still in
flight: the first call invokes the fetch, the second is dropped by the
concurrent-request guard, so exactly one underlying fetch invocation
occurs. -/
theorem C3_dedup {T : Type} (key : String) (t t' : Int) (h : 1000 ≤ t) :
    (fetchStart ({} : HookState T) DataCache.empty key false t).1.isStarted = true ∧
    (fetchStart (fetchStart ({} : HookState T) DataCache.empty key false t).2.1
       (fetchStart ({} : HookState T) DataCache.empty key false t).2.2
       key false t').1.isStarted = false := by
  have h1 : fetchStart ({} : HookState T) DataCache.empty key false t
      = abortAndStart {} (DataCache.get DataCache.empty key t).2 :=
    fetchStart_miss_idle _ _ _ _ rfl rfl (by show (1000:Int) ≤ t - 0; omega)
  constructor
  · rw [h1]; rfl
  · rw [h1]
    rw [fetchStart_miss_loading
      (abortAndStart ({} : HookState T) (DataCache.get DataCache.empty key t).2).2.1
      (abortAndStart ({} : HookState T) (DataCache.get DataCache.empty key t).2).2.2
      key t' rfl rfl]
    rfl

/-- Witness for C3 at `t = 5000`, `t' = 5100`. -/
theorem C3_dedup_witness :
    (1000:Int) ≤ 5000 ∧
    ((fetchStart ({} : HookState Nat) DataCache.empty "k" false 5000).1.isStarted = true ∧
     (fetchStart (fetchStart ({} : HookState Nat) DataCache.empty "k" false 5000).2.1
        (fetchStart ({} : HookState Nat) DataCache.empty "k" false 5000).2.2
        "k" false 5100).1.isStarted = false) :=
  ⟨by decide, C3_dedup "k" 5000 5100 (by decide)⟩

/-- **C5, counterexample.** `lastFetchRef.current = now` is executed only
in the success path, so a *failed* attempt does not arm the rate limit: in
the rate-limit trace the attempt at `t = 5000` fails, and a non-forced
request only 500 ms later is *not* suppressed — it invokes a new fetch,
contradicting the claim's "whether that previous attempt succeeded or
failed". -/
theorem C5_counterexample :
    c5Step2.1 = .failureFinal "boom" ∧ c5Step3.1.isStarted = true := by
  decide

/-- **C5, amended.** A non-forced request issued less than 1 second after
the *start* of the previous *successful* fetch attempt (the code stamps
`lastFetchRef` with the attempt's start time, and only on success) invokes
no new fetch: it is answered from the cache if the stored entry is still
live, and suppressed by the rate limit otherwise. -/
theorem C5_amended_rate_limit {T : Type} (opts : HookOptions)
    (st : HookState T) (c : Cache T) (key : String) (s r q : Int) (v : T)
    (h : q - s < 1000) :
    (fetchStart (fetchResolve opts st c key s (.ok v) r).2.1
       (fetchResolve opts st c key s (.ok v) r).2.2 key false q).1.isStarted = false := by
  have hset : (fetchResolve opts st c key s (.ok v) r).2.2 key =
      some { data := v, timestamp := r, expiresAt := r + opts.ttl } :=
    DataCache.set_apply_same c key v opts.ttl r
  by_cases hexp : r + opts.ttl < q
  · have hmiss : (DataCache.get (fetchResolve opts st c key s (.ok v) r).2.2 key q).1 = none :=
      DataCache.get_fst_expired _ _ _ _ hset (by exact hexp)
    rw [fetchStart_miss_rate_limited _ _ key q hmiss rfl (by exact h)]
    rfl
  · have hhit : (DataCache.get (fetchResolve opts st c key s (.ok v) r).2.2 key q).1 = some v :=
      DataCache.get_fst_live _ _ _ _ hset (by simp only; omega)
    rw [fetchStart_hit _ _ key q v hhit]
    rfl

/-- Witness for C5 (amended): success started at `s = 5000`, resolved at
`r = 5010`, next non-forced request at `q = 5500`. -/
theorem C5_amended_rate_limit_witness :
    (5500:Int) - 5000 < 1000 ∧
    (fetchStart (fetchResolve ({} : HookOptions) ({} : HookState Nat) DataCache.empty "k" 5000 (.ok 7) 5010).2.1
       (fetchResolve ({} : HookOptions) ({} : HookState Nat) DataCache.empty "k" 5000 (.ok 7) 5010).2.2
       "k" false 5500).1.isStarted = false :=
  ⟨by decide, C5_amended_rate_limit {} {} DataCache.empty "k" 5000 5010 5500 7 (by decide)⟩

/-- **C6, counterexample.** With default options and `retryCount = 0 <
maxRetries = 3`, a failed attempt both schedules a retry (1000 ms) *and*
immediately surfaces the failure: `setError` runs and `throw err` rethrows
to the caller, contradicting the claim that the failure is not surfaced
while retries remain. -/
theorem C6_counterexample :
    (fetchResolve ({} : HookOptions)
        ({ isLoading := true, currentToken := some 0, nextToken := 1 } : HookState Nat)
        DataCache.empty "k" 5000 (.error "boom") 5000).1 = .failureRetry "boom" 1000 ∧
    (fetchResolve ({} : HookOptions)
        ({ isLoading := true, currentToken := some 0, nextToken := 1 } : HookState Nat)
        DataCache.empty "k" 5000 (.error "boom") 5000).1.thrown = some "boom" ∧
    (fetchResolve ({} : HookOptions)
        ({ isLoading := true, currentToken := some 0, nextToken := 1 } : HookState Nat)
        DataCache.empty "k" 5000 (.error "boom") 5000).2.1.error = some "boom" := by
  decide

/-- **C6, amended.** Every failed attempt surfaces the failure (the error
state is set and the exception is rethrown), including attempts that
schedule a retry; in particular once the retry budget is exhausted
(`maxRetries ≤ retryCount`) the resolution is terminal (no retry is
scheduled), the coordinator remains in the failed state, and it stays
usable: a subsequent manual `refresh()` always invokes a new fetch. -/
theorem C6_amended_error_surfacing {T : Type} (opts : HookOptions)
    (st : HookState T) (c : Cache T) (key : String)
    (startNow resolveNow now' : Int) (msg : String)
    (hex : opts.maxRetries ≤ st.retryCount) :
    (fetchResolve opts st c key startNow (.error msg) resolveNow).1 = .failureFinal msg ∧
    (fetchResolve opts st c key startNow (.error msg) resolveNow).1.thrown = some msg ∧
    (fetchResolve opts st c key startNow (.error msg) resolveNow).2.1.error = some msg ∧
    (refreshStart (fetchResolve opts st c key startNow (.error msg) resolveNow).2.1
       (fetchResolve opts st c key startNow (.error msg) resolveNow).2.2
       key now').1.isStarted = true := by
  rw [fetchResolve_error_final opts st c key startNow resolveNow msg
    (by rintro ⟨-, hlt⟩; omega)]
  exact ⟨rfl, rfl, rfl, rfl⟩

/-- Witness for C6 (amended): budget exhausted at `retryCount = 3`. -/
theorem C6_amended_error_surfacing_witness :
    ({} : HookOptions).maxRetries ≤ ({ retryCount := 3 } : HookState Nat).retryCount ∧
    ((fetchResolve ({} : HookOptions) ({ retryCount := 3 } : HookState Nat)
        DataCache.empty "k" 5000 (.error "boom") 5001).1 = .failureFinal "boom" ∧
     (fetchResolve ({} : HookOptions) ({ retryCount := 3 } : HookState Nat)
        DataCache.empty "k" 5000 (.error "boom") 5001).1.thrown = some "boom" ∧
     (fetchResolve ({} : HookOptions) ({ retryCount := 3 } : HookState Nat)
        DataCache.empty "k" 5000 (.error "boom") 5001).2.1.error = some "boom" ∧
     (refreshStart (fetchResolve ({} : HookOptions) ({ retryCount := 3 } : HookState Nat)
          DataCache.empty "k" 5000 (.error "boom") 5001).2.1
        (fetchResolve ({} : HookOptions) ({ retryCount := 3 } : HookState Nat)
          DataCache.empty "k" 5000 (.error "boom") 5001).2.2
        "k" 6000).1.isStarted = true) :=
  ⟨by decide,
   C6_amended_error_surfacing {} { retryCount := 3 } DataCache.empty "k" 5000 5001 6000 "boom"
     (by decide)⟩

/-- **C7, counterexample.** The hook's `invalidate()` runs only
`globalCache.invalidate(key); setData(null);` — it does not clear `error`
and does not reset `retryCount`: from a state with `error = "e"` and
`retryCount = 2`, both survive the call, contradicting "data, error, and
retry count cleared". -/
theorem C7_counterexample :
    (hookInvalidate ({ data := some 5, error := some "e", retryCount := 2 } : HookState Nat)
        DataCache.empty "k").1.error = some "e" ∧
    (hookInvalidate ({ data := some 5, error := some "e", retryCount := 2 } : HookState Nat)
        DataCache.empty "k").1.retryCount = 2 := by
  decide

/-- **C7, amended.** `invalidate()` removes the key from the cache store
(a subsequent `get` returns absent) and clears `data` to `null`, and it
issues no fetch (it is a pure state/cache update with no start outcome);
but `error`, `retryCount` and `isLoading` are left unchanged rather than
reset to an idle state. -/
theorem C7_amended_invalidate {T : Type} (st : HookState T) (c : Cache T)
    (key : String) (now : Int) :
    (hookInvalidate st c key).1.data = none ∧
    (hookInvalidate st c key).1.error = st.error ∧
    (hookInvalidate st c key).1.retryCount = st.retryCount ∧
    (hookInvalidate st c key).1.isLoading = st.isLoading ∧
    (DataCache.get (hookInvalidate st c key).2 key now).1 = none := by
  refine ⟨rfl, rfl, rfl, rfl, ?_⟩
  have hk : (hookInvalidate st c key).2 key = none := by
    show DataCache.invalidate c (some key) key = none
    simp only [DataCache.invalidate]
    rw [if_pos]
    show stringIncludes key key = true
    exact decide_eq_true (List.infix_refl _)
  rw [DataCache.get_of_none _ _ _ hk]

/-- Witness for C7 (amended) at a concrete state with an error and a
nonzero retry count. -/
theorem C7_amended_invalidate_witness :
    (hookInvalidate ({ data := some 5, error := some "x", retryCount := 1 } : HookState Nat)
        DataCache.empty "k").1.data = none ∧
    (hookInvalidate ({ data := some 5, error := some "x", retryCount := 1 } : HookState Nat)
        DataCache.empty "k").1.error =
      ({ data := some 5, error := some "x", retryCount := 1 } : HookState Nat).error ∧
    (hookInvalidate ({ data := some 5, error := some "x", retryCount := 1 } : HookState Nat)
        DataCache.empty "k").1.retryCount =
      ({ data := some 5, error := some "x", retryCount := 1 } : HookState Nat).retryCount ∧
    (hookInvalidate ({ data := some 5, error := some "x", retryCount := 1 } : HookState Nat)
        DataCache.empty "k").1.isLoading =
      ({ data := some 5, error := some "x", retryCount := 1 } : HookState Nat).isLoading ∧
    (DataCache.get (hookInvalidate
        ({ data := some 5, error := some "x", retryCount := 1 } : HookState Nat)
        DataCache.empty "k").2 "k" 9000).1 = none :=
  C7_amended_invalidate { data := some 5, error := some "x", retryCount := 1 }
    DataCache.empty "k" 9000

end OptimizedData
